import Mathlib

/-!
Shallow embedding of the B1500A memristor-measurement driver
(`src/rswitch-script_b1500a.py`) and a verification of its specification.

The two protocol functions `sweep` and `sample` are embedded as pure
functions.  All instrument interaction is made explicit:

* every `inst.write(...)` / `inst.query(...)` / `inst.read()` becomes an
  event in an output `trace`;
* the instrument's answers to the `ERR? 1` queries and to `read()` are
  supplied up front in an environment record (the driver consumes them in
  its fixed order, so they can be named positionally);
* Python's `float()` is an explicit conversion parameter returning
  `Option ℚ` (`none` models `ValueError`), with `pyFloat` as the concrete
  model used for witnesses;
* the error paths that `return` with `None` are modelled as `.ok none`,
  uncaught exceptions (`IndexError`, `ValueError`, `ZeroDivisionError`) as
  `.error`, and a normal data return as `.ok (some _)`.
-/

namespace B1500A

/-- Python exceptions that the embedded driver code can raise. -/
inductive PyExn where
  | indexError
  | valueError
  | zeroDivisionError
  deriving DecidableEq, Repr

/-- Module-level globals of the script that `sweep` and `sample` read:
the SMU numbers `top = 3` and `bot = 4`, and the sweep rate `dVdt = 0.2`. -/
structure Globals where
  top : ℕ
  bot : ℕ
  dVdt : ℚ
  deriving DecidableEq, Repr

/-- The values assigned to the globals at the top of the script
(`top = 3`, `bot = 4`, `dVdt = 0.2`). -/
def defaultGlobals : Globals := ⟨3, 4, 1 / 5⟩

/-- Commands written to the instrument, one constructor per `inst.write`
format string of the source, carrying the numeric arguments in source
order.  `DZCL` is the single combined write `"DZ;CL"` of the normal exit
path; `DZ` is the bare de-energize write of the error paths. -/
inductive Cmd where
  | RST
  | CN (a b : ℕ)
  | FMT (a b : ℕ)
  | TSC (a : ℕ)
  | AV (a b : ℕ)
  | FL (a : ℕ)
  | DV (ch vrange : ℕ) (v comp : ℚ)
  | MM (mode ch : ℕ)
  | CMM (ch m : ℕ)
  | RI (ch r : ℕ)
  | WT (hold delay : ℚ)
  | WM (a : ℕ)
  | WV (ch mode vrange : ℕ) (vstart vstop : ℚ) (npts : ℕ) (comp : ℚ)
  | TSR
  | XE
  | DZ
  | DZCL
  | AAD (ch m : ℕ)
  | AIT (a b c : ℕ)
  | AZ (a : ℕ)
  | MT (hbias dt : ℚ) (npts : ℕ) (hbase : ℚ)
  | MV (ch vrange : ℕ) (vbase vbias comp : ℚ)
  | MSC (a : ℕ)
  deriving DecidableEq, Repr

/-- Instrument-interaction events, in the order the driver performs them. -/
inductive Ev where
  | write (c : Cmd)
  | queryERR
  | queryOPC
  | queryEMG (code : ℤ)
  | readData
  deriving DecidableEq, Repr

/-- Occurrence count of one event in a trace. -/
def countEv (e : Ev) : List Ev → ℕ
  | [] => 0
  | x :: xs => (if x = e then 1 else 0) + countEv e xs

/-- Consume the leading decimal digits of a character list, returning their
value (most significant digit first), how many digits were consumed, and
the remaining characters. -/
def readDigits : List Char → ℕ × ℕ × List Char
  | [] => (0, 0, [])
  | c :: cs =>
    if c.isDigit then
      let r := readDigits cs
      ((c.toNat - 48) * 10 ^ r.2.1 + r.1, r.2.1 + 1, r.2.2)
    else (0, 0, c :: cs)

/-- Consume an optional leading sign; `true` means negative. -/
def readSign : List Char → Bool × List Char
  | '+' :: cs => (false, cs)
  | '-' :: cs => (true, cs)
  | cs => (false, cs)

/-- Model of Python's built-in `float()` on the plain decimal/scientific
literals this driver receives (optional sign, digits with an optional
fractional part, optional `e`/`E` exponent), as an exact rational.
Returns `none` where `float()` raises `ValueError`. -/
def pyFloat (s : String) : Option ℚ :=
  let s0 := readSign s.data
  let m1 := readDigits s0.2
  let m2 :=
    match m1.2.2 with
    | '.' :: t => readDigits t
    | other => (0, 0, other)
  if m1.2.1 + m2.2.1 = 0 then none
  else
    let mant : ℚ := ((m1.1 : ℚ) * 10 ^ m2.2.1 + (m2.1 : ℚ)) / 10 ^ m2.2.1
    let signed : ℚ := if s0.1 then -mant else mant
    match m2.2.2 with
    | [] => some signed
    | c :: t =>
      if c = 'e' ∨ c = 'E' then
        let es := readSign t
        let ed := readDigits es.2
        if ed.2.1 = 0 ∨ ed.2.2 ≠ [] then none
        else some (if es.1 then signed / 10 ^ ed.1 else signed * 10 ^ ed.1)
      else none

/-- Model of Python's `str.split(sep)` for a one-character separator:
`"".split(sep) = [""]`, adjacent separators yield empty fields, and a
trailing separator yields a trailing empty field. -/
def pySplit (sep : Char) : List Char → List (List Char)
  | [] => [[]]
  | c :: cs =>
    if c = sep then [] :: pySplit sep cs
    else
      match pySplit sep cs with
      | [] => [[c]]
      | h :: t => (c :: h) :: t

/-- One decoded series of values. -/
abbrev Series := List ℚ

/-- The three accumulator lists of the sweep parse loop
(`Tdat`, `Vdat`, `Idat`). -/
structure TVI where
  Tdat : Series
  Vdat : Series
  Idat : Series
  deriving DecidableEq, Repr

/-- The two accumulator lists of the sample parse loop (`Tdat`, `Idat`). -/
structure TI where
  Tdat : Series
  Idat : Series
  deriving DecidableEq, Repr

/-- One guarded append of the parse loops: models
`if i[2] == tag: xs.append(float(i[3:]))`, where a failing `float`
raises `ValueError`. -/
def appendIf (conv : String → Option ℚ) (cond : Bool) (payload : String)
    (xs : Series) : Except PyExn Series :=
  if cond then
    match conv payload with
    | some v => Except.ok (xs ++ [v])
    | none => Except.error PyExn.valueError
  else Except.ok xs

/-- One iteration of the sweep parse loop (source lines 106-112): evaluate
`i[2]` (an `IndexError` when the field has fewer than three characters),
then run the three guarded appends in source order (`I`, `V`, `T`). -/
def sweepField (conv : String → Option ℚ) (acc : TVI) (f : List Char) :
    Except PyExn TVI :=
  match f[2]? with
  | none => Except.error PyExn.indexError
  | some c => do
    let idat ← appendIf conv (c = 'I') (String.mk (f.drop 3)) acc.Idat
    let vdat ← appendIf conv (c = 'V') (String.mk (f.drop 3)) acc.Vdat
    let tdat ← appendIf conv (c = 'T') (String.mk (f.drop 3)) acc.Tdat
    Except.ok ⟨tdat, vdat, idat⟩

/-- The sweep parse loop over all fields of one response. -/
def sweepFields (conv : String → Option ℚ) :
    List (List Char) → TVI → Except PyExn TVI
  | [], acc => Except.ok acc
  | f :: fs, acc =>
    match sweepField conv acc f with
    | Except.error e => Except.error e
    | Except.ok acc2 => sweepFields conv fs acc2

/-- One iteration of the sample parse loop (source lines 193-197): evaluate
`i[2]`, then the two guarded appends in source order (`I`, `T`). -/
def sampleField (conv : String → Option ℚ) (acc : TI) (f : List Char) :
    Except PyExn TI :=
  match f[2]? with
  | none => Except.error PyExn.indexError
  | some c => do
    let idat ← appendIf conv (c = 'I') (String.mk (f.drop 3)) acc.Idat
    let tdat ← appendIf conv (c = 'T') (String.mk (f.drop 3)) acc.Tdat
    Except.ok ⟨tdat, idat⟩

/-- The sample parse loop over all fields of one response. -/
def sampleFields (conv : String → Option ℚ) :
    List (List Char) → TI → Except PyExn TI
  | [], acc => Except.ok acc
  | f :: fs, acc =>
    match sampleField conv acc f with
    | Except.error e => Except.error e
    | Except.ok acc2 => sampleFields conv fs acc2

/-- Instrument responses consumed by one `sweep` call, in consumption
order: the three `ERR? 1` answers, the two `read()` payloads, the
`float()` conversion, and the `EMG?` answer used by `errorchk`. -/
structure SweepEnv where
  err1 : ℤ
  err2 : ℤ
  err3 : ℤ
  read1 : String
  read2 : String
  conv : String → Option ℚ
  emg : ℤ → String

/-- Instrument responses consumed by one `sample` call. -/
structure SampleEnv where
  err1 : ℤ
  err2 : ℤ
  read1 : String
  conv : String → Option ℚ
  emg : ℤ → String

/-- Observable outcome of one `sweep` call: the event trace, the lines
printed, and the returned value (`.ok (some _)` a data return, `.ok none`
the `return` (with `None`) of an error path, `.error` an uncaught
exception). -/
structure SweepOut where
  trace : List Ev
  printed : List String
  result : Except PyExn (Option TVI)

/-- Observable outcome of one `sample` call. -/
structure SampleOut where
  trace : List Ev
  printed : List String
  result : Except PyExn (Option TI)

/-- `errorchk` (source lines 202-205): queries `EMG?` for the message and
prints the error report; returns the events and printed lines. -/
def errorchk (emg : ℤ → String) (err : ℤ) : List Ev × List String :=
  ([Ev.queryEMG err],
   ["Instrument error: " ++ toString err ++ " - " ++ emg err,
    "Program will end."])

/-- `sweep(inst, V1, V2, npts, comp)` (source lines 56-144).  The guard on
`(npts : ℚ) * g.dVdt = 0` models Python's `ZeroDivisionError` at
`delay = (V2-V1)/(npts*dVdt)`, raised before any command is written. -/
def sweep (g : Globals) (env : SweepEnv) (V1 V2 : ℚ) (npts : ℕ)
    (comp : ℚ) : SweepOut :=
  if (npts : ℚ) * g.dVdt = 0 then
    ⟨[], [], Except.error PyExn.zeroDivisionError⟩
  else
    let hold : ℚ := 0
    let delay : ℚ := (V2 - V1) / ((npts : ℚ) * g.dVdt)
    let t1 : List Ev :=
      [Ev.write Cmd.RST, Ev.write (Cmd.CN g.top g.bot),
       Ev.write (Cmd.FMT 1 1), Ev.write (Cmd.TSC 1),
       Ev.write (Cmd.AV 30 1), Ev.write (Cmd.FL 0),
       Ev.write (Cmd.DV g.top 0 0 comp), Ev.write (Cmd.DV g.bot 0 0 comp),
       Ev.write (Cmd.MM 2 g.top), Ev.write (Cmd.CMM g.top 1),
       Ev.write (Cmd.RI g.top 0), Ev.write (Cmd.WT hold delay),
       Ev.write (Cmd.WM 1), Ev.queryERR]
    if env.err1 ≠ 0 then
      let ec := errorchk env.emg env.err1
      ⟨t1 ++ [Ev.write Cmd.DZ] ++ ec.1, ec.2, Except.ok none⟩
    else
      let t2 : List Ev := t1 ++
        [Ev.write (Cmd.WV g.top 3 0 V1 V2 npts comp), Ev.write Cmd.TSR,
         Ev.write Cmd.XE, Ev.queryOPC, Ev.queryERR]
      if env.err2 ≠ 0 then
        let ec := errorchk env.emg env.err2
        ⟨t2 ++ [Ev.write Cmd.DZ] ++ ec.1, ec.2, Except.ok none⟩
      else
        let t3 : List Ev := t2 ++ [Ev.readData]
        match sweepFields env.conv (pySplit ',' env.read1.data) ⟨[], [], []⟩ with
        | Except.error e => ⟨t3, [], Except.error e⟩
        | Except.ok acc1 =>
          let t4 : List Ev := t3 ++
            [Ev.write (Cmd.WV g.top 3 0 V1 (-V2) npts comp),
             Ev.write Cmd.XE, Ev.queryOPC, Ev.queryERR]
          if env.err3 ≠ 0 then
            let ec := errorchk env.emg env.err3
            ⟨t4 ++ [Ev.write Cmd.DZ] ++ ec.1, ec.2, Except.ok none⟩
          else
            let t5 : List Ev := t4 ++ [Ev.readData]
            match sweepFields env.conv (pySplit ',' env.read2.data) acc1 with
            | Except.error e => ⟨t5, [], Except.error e⟩
            | Except.ok acc2 =>
              ⟨t5 ++ [Ev.write Cmd.DZCL], [], Except.ok (some acc2)⟩

/-- `sample(inst, V, dt, npts, comp, form)` (source lines 146-200).  Note
the widened error acceptance at the second check: `660` is accepted
whatever the value of `form`. -/
def sample (g : Globals) (env : SampleEnv) (V dt : ℚ) (npts : ℕ)
    (comp : ℚ) (form : Bool) : SampleOut :=
  let t1 : List Ev :=
    [Ev.write Cmd.RST, Ev.write (Cmd.CN g.top g.bot),
     Ev.write (Cmd.FMT 1 1), Ev.write (Cmd.TSC 1), Ev.write (Cmd.FL 1),
     Ev.write (Cmd.AAD g.top 1), Ev.write (Cmd.AAD g.bot 1),
     Ev.write (Cmd.AIT 1 1 3), Ev.write (Cmd.AZ 0),
     Ev.write (Cmd.MT 0 dt npts 0), Ev.write (Cmd.MV g.top 0 0 V comp),
     Ev.write (Cmd.DV g.bot 0 0 comp), Ev.queryERR]
  if env.err1 ≠ 0 then
    let ec := errorchk env.emg env.err1
    ⟨t1 ++ [Ev.write Cmd.DZ] ++ ec.1, ec.2, Except.ok none⟩
  else
    let t2 : List Ev := t1 ++
      [Ev.write (Cmd.MM 10 g.top), Ev.write (Cmd.RI g.top 0)] ++
      (if form then [Ev.write (Cmd.MSC 2)] else []) ++
      [Ev.write Cmd.TSR, Ev.write Cmd.XE, Ev.queryOPC, Ev.queryERR]
    if ¬(env.err2 = 0 ∨ env.err2 = 660) then
      let ec := errorchk env.emg env.err2
      ⟨t2 ++ [Ev.write Cmd.DZ] ++ ec.1, ec.2, Except.ok none⟩
    else
      let t3 : List Ev := t2 ++ [Ev.readData]
      match sampleFields env.conv (pySplit ',' env.read1.data) ⟨[], []⟩ with
      | Except.error e => ⟨t3, [], Except.error e⟩
      | Except.ok acc =>
        ⟨t3 ++ [Ev.write Cmd.DZCL], [], Except.ok (some acc)⟩

/-- The instrument's overflow threshold (`1e+101` in source line 263). -/
def overflowThreshold : ℚ := 10 ^ 101

/-- The caller-side overflow masking of `main` (source line 263,
`tempdata[tempdata >= 1e+101] = 0`), applied there only to the forming
sample's series.  Note the comparison is one-sided (`≥`), not
a magnitude test. -/
def overflowNormalize (xs : Series) : Series :=
  xs.map fun x => if overflowThreshold ≤ x then 0 else x

/-- Spec-side description of the parse loops (§4.3 of the spec, stated in
the spec's own words): split on the delimiter, inspect the kind-tag
character at fixed offset 2, convert the substring from offset 3 onward
and collect the values of one kind in transmission order, ignoring
unrecognized tags.  Used only to compare against the loop embedded from
the source. -/
def seriesFor (conv : String → Option ℚ) (tag : Char)
    (fields : List (List Char)) : Series :=
  fields.filterMap fun f =>
    if f[2]? = some tag then conv (String.mk (f.drop 3)) else none

/-- Configuration/reset commands of steps 1-4 of the sweep protocol (the
commands issued by `sweep` before its first error check). -/
def isConfigCmd : Cmd → Bool
  | Cmd.RST => true
  | Cmd.CN _ _ => true
  | Cmd.FMT _ _ => true
  | Cmd.TSC _ => true
  | Cmd.AV _ _ => true
  | Cmd.FL _ => true
  | Cmd.DV _ _ _ _ => true
  | Cmd.MM _ _ => true
  | Cmd.CMM _ _ => true
  | Cmd.RI _ _ => true
  | Cmd.WT _ _ => true
  | Cmd.WM _ => true
  | _ => false

/-- Checks that every `XE` (trigger-execute) write in a trace is
immediately followed by an `*OPC?` query, with nothing in between. -/
def xeOk : List Ev → Bool
  | [] => true
  | e :: rest =>
    if e = Ev.write Cmd.XE then
      match rest with
      | Ev.queryOPC :: rest2 => xeOk rest2
      | _ => false
    else xeOk rest

/-- The observable failure signal of the driver's error paths: the `EMG?`
message query was issued for `code`, the printed report carries both the
numeric code and the instrument-provided message, and the bare `DZ`
de-energize write was issued. -/
def instrumentFailure (emg : ℤ → String) (code : ℤ) (trace : List Ev)
    (printed : List String) : Prop :=
  Ev.queryEMG code ∈ trace ∧
  printed = ["Instrument error: " ++ toString code ++ " - " ++ emg code,
             "Program will end."] ∧
  Ev.write Cmd.DZ ∈ trace

/-- Number of data returns in a result: 1 for `.ok (some _)`, else 0. -/
def teardownTally {α : Type} : Except PyExn (Option α) → ℕ
  | Except.ok (some _) => 1
  | _ => 0

/-- Number of error-path returns in a result: 1 for `.ok none`, else 0. -/
def abortTally {α : Type} : Except PyExn (Option α) → ℕ
  | Except.ok none => 1
  | _ => 0

/-! ### Parse-loop lemmas -/

theorem appendIf_shift (conv : String → Option ℚ) (cond : Bool)
    (payload : String) (xs : Series) :
    appendIf conv cond payload xs =
      (appendIf conv cond payload []).map (fun v => xs ++ v) := by
  cases cond with
  | false => simp [appendIf, Except.map]
  | true =>
    cases h : conv payload with
    | none => simp [appendIf, h, Except.map]
    | some v => simp [appendIf, h, Except.map]

theorem sweepField_shift (conv : String → Option ℚ) (acc : TVI)
    (f : List Char) :
    sweepField conv acc f =
      (sweepField conv ⟨[], [], []⟩ f).map
        (fun d => ⟨acc.Tdat ++ d.Tdat, acc.Vdat ++ d.Vdat,
                   acc.Idat ++ d.Idat⟩) := by
  cases hc : f[2]? with
  | none => simp [sweepField, hc, Except.map]
  | some c =>
    simp only [sweepField, hc]
    rw [appendIf_shift conv _ _ acc.Idat]
    cases h1 : appendIf conv (c = 'I') (String.mk (f.drop 3)) [] with
    | error e => simp only [Except.map, h1]; rfl
    | ok i1 =>
      simp only [Except.map, h1]
      rw [appendIf_shift conv _ _ acc.Vdat]
      cases h2 : appendIf conv (c = 'V') (String.mk (f.drop 3)) [] with
      | error e => simp only [Except.map, h2]; rfl
      | ok v1 =>
        simp only [Except.map, h2]
        rw [appendIf_shift conv _ _ acc.Tdat]
        cases h3 : appendIf conv (c = 'T') (String.mk (f.drop 3)) [] with
        | error e => simp only [Except.map, h3]; rfl
        | ok t1 => simp only [Except.map, h3]; rfl

theorem sweepFields_shift (conv : String → Option ℚ)
    (fs : List (List Char)) (acc : TVI) :
    sweepFields conv fs acc =
      (sweepFields conv fs ⟨[], [], []⟩).map
        (fun d => ⟨acc.Tdat ++ d.Tdat, acc.Vdat ++ d.Vdat,
                   acc.Idat ++ d.Idat⟩) := by
  induction fs generalizing acc with
  | nil => cases acc; simp [sweepFields, Except.map]
  | cons f fs ih =>
    simp only [sweepFields]
    rw [sweepField_shift conv acc f]
    cases h : sweepField conv ⟨[], [], []⟩ f with
    | error e => simp [Except.map]
    | ok d =>
      simp only [Except.map]
      rw [ih, ih d]
      cases h2 : sweepFields conv fs ⟨[], [], []⟩ with
      | error e2 => simp [Except.map]
      | ok d2 => simp [Except.map, List.append_assoc]

theorem sampleField_shift (conv : String → Option ℚ) (acc : TI)
    (f : List Char) :
    sampleField conv acc f =
      (sampleField conv ⟨[], []⟩ f).map
        (fun d => ⟨acc.Tdat ++ d.Tdat, acc.Idat ++ d.Idat⟩) := by
  cases hc : f[2]? with
  | none => simp [sampleField, hc, Except.map]
  | some c =>
    simp only [sampleField, hc]
    rw [appendIf_shift conv _ _ acc.Idat]
    cases h1 : appendIf conv (c = 'I') (String.mk (f.drop 3)) [] with
    | error e => simp only [Except.map, h1]; rfl
    | ok i1 =>
      simp only [Except.map, h1]
      rw [appendIf_shift conv _ _ acc.Tdat]
      cases h2 : appendIf conv (c = 'T') (String.mk (f.drop 3)) [] with
      | error e => simp only [Except.map, h2]; rfl
      | ok t1 => simp only [Except.map, h2]; rfl

theorem sampleFields_shift (conv : String → Option ℚ)
    (fs : List (List Char)) (acc : TI) :
    sampleFields conv fs acc =
      (sampleFields conv fs ⟨[], []⟩).map
        (fun d => ⟨acc.Tdat ++ d.Tdat, acc.Idat ++ d.Idat⟩) := by
  induction fs generalizing acc with
  | nil => cases acc; simp [sampleFields, Except.map]
  | cons f fs ih =>
    simp only [sampleFields]
    rw [sampleField_shift conv acc f]
    cases h : sampleField conv ⟨[], []⟩ f with
    | error e => simp [Except.map]
    | ok d =>
      simp only [Except.map]
      rw [ih, ih d]
      cases h2 : sampleFields conv fs ⟨[], []⟩ with
      | error e2 => simp [Except.map]
      | ok d2 => simp [Except.map, List.append_assoc]

/-- `bind` on `Except` after a success, reduced. -/
theorem ok_bind {e a b : Type} (x : a) (f : a → Except e b) :
    (do let y ← Except.ok x; f y) = f x := rfl

/-- The sweep parse loop, run from any accumulator state on well-formed
fields (every field at least three characters long, the conversion
succeeding on every recognized-tag payload), refines the spec-side
`seriesFor` description. -/
theorem sweepFields_toSeries (conv : String → Option ℚ) (fs : List (List Char))
    (hlen : ∀ f ∈ fs, 2 < f.length)
    (hconv : ∀ f ∈ fs,
      (f[2]? = some 'I' ∨ f[2]? = some 'V' ∨ f[2]? = some 'T') →
      (conv (String.mk (f.drop 3))).isSome) :
    ∀ acc : TVI,
    sweepFields conv fs acc =
      Except.ok ⟨acc.Tdat ++ seriesFor conv 'T' fs,
                 acc.Vdat ++ seriesFor conv 'V' fs,
                 acc.Idat ++ seriesFor conv 'I' fs⟩ := by
  induction fs with
  | nil => intro acc; cases acc; simp [sweepFields, seriesFor]
  | cons f fs ih =>
    intro acc
    have hf : 2 < f.length := hlen f (List.mem_cons_self f fs)
    have hlen2 : ∀ g ∈ fs, 2 < g.length := fun g hg =>
      hlen g (List.mem_cons_of_mem f hg)
    have hconv2 : ∀ g ∈ fs,
        (g[2]? = some 'I' ∨ g[2]? = some 'V' ∨ g[2]? = some 'T') →
        (conv (String.mk (g.drop 3))).isSome :=
      fun g hg => hconv g (List.mem_cons_of_mem f hg)
    have ih2 := ih hlen2 hconv2
    cases hc : f[2]? with
    | none =>
      exfalso
      have h2 := List.getElem?_eq_none_iff.mp hc
      omega
    | some c =>
      by_cases hI : c = 'I'
      · subst hI
        obtain ⟨v, hv⟩ := Option.isSome_iff_exists.mp
          (hconv f (List.mem_cons_self f fs) (Or.inl hc))
        simp [sweepFields, sweepField, appendIf, hc, hv, seriesFor, ih2,
          ok_bind, List.append_assoc]
      · by_cases hV : c = 'V'
        · subst hV
          obtain ⟨v, hv⟩ := Option.isSome_iff_exists.mp
            (hconv f (List.mem_cons_self f fs) (Or.inr (Or.inl hc)))
          simp [sweepFields, sweepField, appendIf, hc, hv, seriesFor, ih2,
            ok_bind, List.append_assoc]
        · by_cases hT : c = 'T'
          · subst hT
            obtain ⟨v, hv⟩ := Option.isSome_iff_exists.mp
              (hconv f (List.mem_cons_self f fs) (Or.inr (Or.inr hc)))
            simp [sweepFields, sweepField, appendIf, hc, hv, seriesFor, ih2,
              ok_bind, List.append_assoc]
          · simp [sweepFields, sweepField, appendIf, hc, hI, hV, hT, seriesFor,
              ih2, ok_bind]

/-- The sample parse loop on well-formed fields (every field at least three
characters, the conversion succeeding on `I`- and `T`-tagged payloads)
refines `seriesFor`; `V`-tagged fields are among the ignored tags here. -/
theorem sampleFields_toSeries (conv : String → Option ℚ)
    (fs : List (List Char))
    (hlen : ∀ f ∈ fs, 2 < f.length)
    (hconv : ∀ f ∈ fs, (f[2]? = some 'I' ∨ f[2]? = some 'T') →
      (conv (String.mk (f.drop 3))).isSome) :
    ∀ acc : TI,
    sampleFields conv fs acc =
      Except.ok ⟨acc.Tdat ++ seriesFor conv 'T' fs,
                 acc.Idat ++ seriesFor conv 'I' fs⟩ := by
  induction fs with
  | nil => intro acc; cases acc; simp [sampleFields, seriesFor]
  | cons f fs ih =>
    intro acc
    have hf : 2 < f.length := hlen f (List.mem_cons_self f fs)
    have hlen2 : ∀ g ∈ fs, 2 < g.length := fun g hg =>
      hlen g (List.mem_cons_of_mem f hg)
    have hconv2 : ∀ g ∈ fs, (g[2]? = some 'I' ∨ g[2]? = some 'T') →
        (conv (String.mk (g.drop 3))).isSome :=
      fun g hg => hconv g (List.mem_cons_of_mem f hg)
    have ih2 := ih hlen2 hconv2
    cases hc : f[2]? with
    | none =>
      exfalso
      have h2 := List.getElem?_eq_none_iff.mp hc
      omega
    | some c =>
      by_cases hI : c = 'I'
      · subst hI
        obtain ⟨v, hv⟩ := Option.isSome_iff_exists.mp
          (hconv f (List.mem_cons_self f fs) (Or.inl hc))
        simp [sampleFields, sampleField, appendIf, hc, hv, seriesFor, ih2,
          ok_bind, List.append_assoc]
      · by_cases hT : c = 'T'
        · subst hT
          obtain ⟨v, hv⟩ := Option.isSome_iff_exists.mp
            (hconv f (List.mem_cons_self f fs) (Or.inr hc))
          simp [sampleFields, sampleField, appendIf, hc, hv, seriesFor, ih2,
            ok_bind, List.append_assoc]
        · simp [sampleFields, sampleField, appendIf, hc, hI, hT, seriesFor,
            ih2, ok_bind]

/-! ### Branch characterizations of `sweep` and `sample` -/

/-- The configuration prefix of every `sweep` trace (steps 1-4 of the
protocol and the first error query). -/
def sweepPre (g : Globals) (comp delay : ℚ) : List Ev :=
  [Ev.write Cmd.RST, Ev.write (Cmd.CN g.top g.bot), Ev.write (Cmd.FMT 1 1),
   Ev.write (Cmd.TSC 1), Ev.write (Cmd.AV 30 1), Ev.write (Cmd.FL 0),
   Ev.write (Cmd.DV g.top 0 0 comp), Ev.write (Cmd.DV g.bot 0 0 comp),
   Ev.write (Cmd.MM 2 g.top), Ev.write (Cmd.CMM g.top 1),
   Ev.write (Cmd.RI g.top 0), Ev.write (Cmd.WT 0 delay),
   Ev.write (Cmd.WM 1), Ev.queryERR]

/-- The positive-pass segment of a `sweep` trace. -/
def sweepPos (g : Globals) (V1 V2 : ℚ) (npts : ℕ) (comp : ℚ) : List Ev :=
  [Ev.write (Cmd.WV g.top 3 0 V1 V2 npts comp), Ev.write Cmd.TSR,
   Ev.write Cmd.XE, Ev.queryOPC, Ev.queryERR]

/-- The negative-pass segment of a `sweep` trace. -/
def sweepNeg (g : Globals) (V1 V2 : ℚ) (npts : ℕ) (comp : ℚ) : List Ev :=
  [Ev.write (Cmd.WV g.top 3 0 V1 (-V2) npts comp),
   Ev.write Cmd.XE, Ev.queryOPC, Ev.queryERR]

/-- The shorthand for `sweep`'s per-point delay derivation
(`delay = (V2-V1)/(npts*dVdt)`, source line 58). -/
def sweepDelay (g : Globals) (V1 V2 : ℚ) (npts : ℕ) : ℚ :=
  (V2 - V1) / ((npts : ℚ) * g.dVdt)

theorem sweep_zeroDiv (g : Globals) (env : SweepEnv) (V1 V2 : ℚ) (npts : ℕ)
    (comp : ℚ) (hdiv : (npts : ℚ) * g.dVdt = 0) :
    sweep g env V1 V2 npts comp =
      ⟨[], [], Except.error PyExn.zeroDivisionError⟩ := by
  simp [sweep, hdiv]

theorem sweep_err1 (g : Globals) (env : SweepEnv) (V1 V2 : ℚ) (npts : ℕ)
    (comp : ℚ) (hdiv : ¬(npts : ℚ) * g.dVdt = 0) (h1 : env.err1 ≠ 0) :
    sweep g env V1 V2 npts comp =
      ⟨sweepPre g comp (sweepDelay g V1 V2 npts) ++
         [Ev.write Cmd.DZ, Ev.queryEMG env.err1],
       (errorchk env.emg env.err1).2, Except.ok none⟩ := by
  simp [sweep, hdiv, h1, errorchk, sweepPre, sweepDelay]

theorem sweep_err2 (g : Globals) (env : SweepEnv) (V1 V2 : ℚ) (npts : ℕ)
    (comp : ℚ) (hdiv : ¬(npts : ℚ) * g.dVdt = 0) (h1 : env.err1 = 0)
    (h2 : env.err2 ≠ 0) :
    sweep g env V1 V2 npts comp =
      ⟨sweepPre g comp (sweepDelay g V1 V2 npts) ++
         sweepPos g V1 V2 npts comp ++
         [Ev.write Cmd.DZ, Ev.queryEMG env.err2],
       (errorchk env.emg env.err2).2, Except.ok none⟩ := by
  simp [sweep, hdiv, h1, h2, errorchk, sweepPre, sweepPos, sweepDelay]

theorem sweep_parse1Err (g : Globals) (env : SweepEnv) (V1 V2 : ℚ) (npts : ℕ)
    (comp : ℚ) (e : PyExn) (hdiv : ¬(npts : ℚ) * g.dVdt = 0)
    (h1 : env.err1 = 0) (h2 : env.err2 = 0)
    (hp1 : sweepFields env.conv (pySplit ',' env.read1.data) ⟨[], [], []⟩ =
      Except.error e) :
    sweep g env V1 V2 npts comp =
      ⟨sweepPre g comp (sweepDelay g V1 V2 npts) ++
         sweepPos g V1 V2 npts comp ++ [Ev.readData],
       [], Except.error e⟩ := by
  simp [sweep, hdiv, h1, h2, hp1, sweepPre, sweepPos, sweepDelay]

theorem sweep_err3 (g : Globals) (env : SweepEnv) (V1 V2 : ℚ) (npts : ℕ)
    (comp : ℚ) (d1 : TVI) (hdiv : ¬(npts : ℚ) * g.dVdt = 0)
    (h1 : env.err1 = 0) (h2 : env.err2 = 0) (h3 : env.err3 ≠ 0)
    (hp1 : sweepFields env.conv (pySplit ',' env.read1.data) ⟨[], [], []⟩ =
      Except.ok d1) :
    sweep g env V1 V2 npts comp =
      ⟨sweepPre g comp (sweepDelay g V1 V2 npts) ++
         sweepPos g V1 V2 npts comp ++ [Ev.readData] ++
         sweepNeg g V1 V2 npts comp ++
         [Ev.write Cmd.DZ, Ev.queryEMG env.err3],
       (errorchk env.emg env.err3).2, Except.ok none⟩ := by
  simp [sweep, hdiv, h1, h2, h3, hp1, errorchk, sweepPre, sweepPos, sweepNeg,
    sweepDelay]

theorem sweep_parse2Err (g : Globals) (env : SweepEnv) (V1 V2 : ℚ) (npts : ℕ)
    (comp : ℚ) (d1 : TVI) (e : PyExn) (hdiv : ¬(npts : ℚ) * g.dVdt = 0)
    (h1 : env.err1 = 0) (h2 : env.err2 = 0) (h3 : env.err3 = 0)
    (hp1 : sweepFields env.conv (pySplit ',' env.read1.data) ⟨[], [], []⟩ =
      Except.ok d1)
    (hp2 : sweepFields env.conv (pySplit ',' env.read2.data) d1 =
      Except.error e) :
    sweep g env V1 V2 npts comp =
      ⟨sweepPre g comp (sweepDelay g V1 V2 npts) ++
         sweepPos g V1 V2 npts comp ++ [Ev.readData] ++
         sweepNeg g V1 V2 npts comp ++ [Ev.readData],
       [], Except.error e⟩ := by
  simp [sweep, hdiv, h1, h2, h3, hp1, hp2, sweepPre, sweepPos, sweepNeg,
    sweepDelay]

theorem sweep_okOut (g : Globals) (env : SweepEnv) (V1 V2 : ℚ) (npts : ℕ)
    (comp : ℚ) (d1 d2 : TVI) (hdiv : ¬(npts : ℚ) * g.dVdt = 0)
    (h1 : env.err1 = 0) (h2 : env.err2 = 0) (h3 : env.err3 = 0)
    (hp1 : sweepFields env.conv (pySplit ',' env.read1.data) ⟨[], [], []⟩ =
      Except.ok d1)
    (hp2 : sweepFields env.conv (pySplit ',' env.read2.data) d1 =
      Except.ok d2) :
    sweep g env V1 V2 npts comp =
      ⟨sweepPre g comp (sweepDelay g V1 V2 npts) ++
         sweepPos g V1 V2 npts comp ++ [Ev.readData] ++
         sweepNeg g V1 V2 npts comp ++ [Ev.readData, Ev.write Cmd.DZCL],
       [], Except.ok (some d2)⟩ := by
  simp [sweep, hdiv, h1, h2, h3, hp1, hp2, sweepPre, sweepPos, sweepNeg,
    sweepDelay]

/-- The configuration prefix of every `sample` trace (steps 1-4 of §4.2
and the first error query). -/
def samplePre (g : Globals) (V dt : ℚ) (npts : ℕ) (comp : ℚ) : List Ev :=
  [Ev.write Cmd.RST, Ev.write (Cmd.CN g.top g.bot), Ev.write (Cmd.FMT 1 1),
   Ev.write (Cmd.TSC 1), Ev.write (Cmd.FL 1), Ev.write (Cmd.AAD g.top 1),
   Ev.write (Cmd.AAD g.bot 1), Ev.write (Cmd.AIT 1 1 3),
   Ev.write (Cmd.AZ 0), Ev.write (Cmd.MT 0 dt npts 0),
   Ev.write (Cmd.MV g.top 0 0 V comp), Ev.write (Cmd.DV g.bot 0 0 comp),
   Ev.queryERR]

/-- The arm-and-trigger segment of a `sample` trace; `MSC 2` is written
only when `form` is set. -/
def sampleArm (g : Globals) (form : Bool) : List Ev :=
  [Ev.write (Cmd.MM 10 g.top), Ev.write (Cmd.RI g.top 0)] ++
  (if form then [Ev.write (Cmd.MSC 2)] else []) ++
  [Ev.write Cmd.TSR, Ev.write Cmd.XE, Ev.queryOPC, Ev.queryERR]

theorem sample_err1 (g : Globals) (env : SampleEnv) (V dt : ℚ) (npts : ℕ)
    (comp : ℚ) (form : Bool) (h1 : env.err1 ≠ 0) :
    sample g env V dt npts comp form =
      ⟨samplePre g V dt npts comp ++ [Ev.write Cmd.DZ, Ev.queryEMG env.err1],
       (errorchk env.emg env.err1).2, Except.ok none⟩ := by
  simp [sample, h1, errorchk, samplePre]

theorem sample_err2 (g : Globals) (env : SampleEnv) (V dt : ℚ) (npts : ℕ)
    (comp : ℚ) (form : Bool) (h1 : env.err1 = 0)
    (h2 : ¬(env.err2 = 0 ∨ env.err2 = 660)) :
    sample g env V dt npts comp form =
      ⟨samplePre g V dt npts comp ++ sampleArm g form ++
         [Ev.write Cmd.DZ, Ev.queryEMG env.err2],
       (errorchk env.emg env.err2).2, Except.ok none⟩ := by
  simp [sample, h1, h2, errorchk, samplePre, sampleArm]

theorem sample_parseErr (g : Globals) (env : SampleEnv) (V dt : ℚ) (npts : ℕ)
    (comp : ℚ) (form : Bool) (e : PyExn) (h1 : env.err1 = 0)
    (h2 : env.err2 = 0 ∨ env.err2 = 660)
    (hp : sampleFields env.conv (pySplit ',' env.read1.data) ⟨[], []⟩ =
      Except.error e) :
    sample g env V dt npts comp form =
      ⟨samplePre g V dt npts comp ++ sampleArm g form ++ [Ev.readData],
       [], Except.error e⟩ := by
  simp [sample, h1, h2, hp, samplePre, sampleArm]

theorem sample_okOut (g : Globals) (env : SampleEnv) (V dt : ℚ) (npts : ℕ)
    (comp : ℚ) (form : Bool) (d : TI) (h1 : env.err1 = 0)
    (h2 : env.err2 = 0 ∨ env.err2 = 660)
    (hp : sampleFields env.conv (pySplit ',' env.read1.data) ⟨[], []⟩ =
      Except.ok d) :
    sample g env V dt npts comp form =
      ⟨samplePre g V dt npts comp ++ sampleArm g form ++
         [Ev.readData, Ev.write Cmd.DZCL],
       [], Except.ok (some d)⟩ := by
  simp [sample, h1, h2, hp, samplePre, sampleArm]

/-! ### Claims -/

set_option maxRecDepth 100000 in
/-- C10 (confirmed): there are raw responses — any containing a field of
fewer than three characters, e.g. the empty field after a trailing
delimiter — on which the parse loops of both `sweep` and `sample` raise an
out-of-range index error (`i[2]`) instead of ignoring the field: the
parser is not total over arbitrary comma-delimited text. -/
theorem c10_short_field_not_total :
    (sweep defaultGlobals ⟨0, 0, 0, "NAT0,", "", pyFloat, fun _ => ""⟩
        0 1 101 (1 / 1000)).result = Except.error PyExn.indexError ∧
    (sample defaultGlobals ⟨0, 0, "ABT0,ABI0,", pyFloat, fun _ => ""⟩
        (1 / 10) (1 / 20) 200 (1 / 1000) false).result =
      Except.error PyExn.indexError := by
  constructor
  · with_unfolding_all rfl
  · with_unfolding_all rfl

/-- C6 (confirmed): the derived per-point delay is
`(V2 - V1) / (npts * dVdt)`; it is nonnegative when the ramp rate is
positive, the endpoint dominates the start, and the point count is
positive (the denominator is then nonzero, so the quotient is a genuine
finite rational); and exactly this value, with hold `0`, is written in the
`WT` timing command on every `sweep` call that reaches the command phase. -/
theorem c6_delay_programmed (g : Globals) (env : SweepEnv) (V1 V2 : ℚ)
    (npts : ℕ) (comp : ℚ) :
    (0 < g.dVdt → V1 ≤ V2 → 0 < npts → 0 ≤ sweepDelay g V1 V2 npts) ∧
    ((npts : ℚ) * g.dVdt ≠ 0 →
      Ev.write (Cmd.WT 0 (sweepDelay g V1 V2 npts)) ∈
        (sweep g env V1 V2 npts comp).trace) := by
  constructor
  · intro hr hV hn
    have hden : (0 : ℚ) < (npts : ℚ) * g.dVdt :=
      mul_pos (by exact_mod_cast hn) hr
    exact div_nonneg (sub_nonneg.mpr hV) (le_of_lt hden)
  · intro hdiv
    by_cases h1 : env.err1 = 0
    · by_cases h2 : env.err2 = 0
      · cases hp1 : sweepFields env.conv (pySplit ',' env.read1.data)
            ⟨[], [], []⟩ with
        | error e =>
          rw [sweep_parse1Err g env V1 V2 npts comp e hdiv h1 h2 hp1]
          simp [sweepPre]
        | ok d1 =>
          by_cases h3 : env.err3 = 0
          · cases hp2 : sweepFields env.conv (pySplit ',' env.read2.data)
                d1 with
            | error e =>
              rw [sweep_parse2Err g env V1 V2 npts comp d1 e hdiv h1 h2 h3
                hp1 hp2]
              simp [sweepPre]
            | ok d2 =>
              rw [sweep_okOut g env V1 V2 npts comp d1 d2 hdiv h1 h2 h3
                hp1 hp2]
              simp [sweepPre]
          · rw [sweep_err3 g env V1 V2 npts comp d1 hdiv h1 h2 h3 hp1]
            simp [sweepPre]
      · rw [sweep_err2 g env V1 V2 npts comp hdiv h1 h2]
        simp [sweepPre]
    · rw [sweep_err1 g env V1 V2 npts comp hdiv h1]
      simp [sweepPre]

set_option maxRecDepth 100000 in
/-- Witness for C6 at the spec's own example
(`start 0, end 1.0, points 101, rampRate 0.2`). -/
theorem c6_delay_programmed_witness :
    0 ≤ sweepDelay defaultGlobals 0 1 101 ∧
    Ev.write (Cmd.WT 0 (sweepDelay defaultGlobals 0 1 101)) ∈
      (sweep defaultGlobals ⟨0, 0, 0, "", "", pyFloat, fun _ => ""⟩
        0 1 101 (1 / 1000)).trace :=
  ⟨(c6_delay_programmed defaultGlobals ⟨0, 0, 0, "", "", pyFloat, fun _ => ""⟩
        0 1 101 (1 / 1000)).1
      (by norm_num [defaultGlobals]) (by norm_num) (by norm_num),
   (c6_delay_programmed defaultGlobals ⟨0, 0, 0, "", "", pyFloat, fun _ => ""⟩
        0 1 101 (1 / 1000)).2
      (by norm_num [defaultGlobals])⟩

/-- C9 (confirmed): in every `sweep` and every `sample` run, each
trigger-execute (`XE`) write is immediately followed by the blocking
`*OPC?` completion query, before any further write or read, on every
branch of the protocol. -/
theorem c9_trigger_then_opc (g : Globals) (env : SweepEnv)
    (senv : SampleEnv) (V1 V2 : ℚ) (npts : ℕ) (comp : ℚ) (V dt : ℚ)
    (npts2 : ℕ) (comp2 : ℚ) (form : Bool) :
    xeOk (sweep g env V1 V2 npts comp).trace = true ∧
    xeOk (sample g senv V dt npts2 comp2 form).trace = true := by
  constructor
  · by_cases hdiv : (npts : ℚ) * g.dVdt = 0
    · rw [sweep_zeroDiv g env V1 V2 npts comp hdiv]; rfl
    · by_cases h1 : env.err1 = 0
      · by_cases h2 : env.err2 = 0
        · cases hp1 : sweepFields env.conv (pySplit ',' env.read1.data)
              ⟨[], [], []⟩ with
          | error e =>
            rw [sweep_parse1Err g env V1 V2 npts comp e hdiv h1 h2 hp1]
            simp [xeOk, sweepPre, sweepPos]
          | ok d1 =>
            by_cases h3 : env.err3 = 0
            · cases hp2 : sweepFields env.conv (pySplit ',' env.read2.data)
                  d1 with
              | error e =>
                rw [sweep_parse2Err g env V1 V2 npts comp d1 e hdiv h1 h2 h3
                  hp1 hp2]
                simp [xeOk, sweepPre, sweepPos, sweepNeg]
              | ok d2 =>
                rw [sweep_okOut g env V1 V2 npts comp d1 d2 hdiv h1 h2 h3
                  hp1 hp2]
                simp [xeOk, sweepPre, sweepPos, sweepNeg]
            · rw [sweep_err3 g env V1 V2 npts comp d1 hdiv h1 h2 h3 hp1]
              simp [xeOk, sweepPre, sweepPos, sweepNeg]
        · rw [sweep_err2 g env V1 V2 npts comp hdiv h1 h2]
          simp [xeOk, sweepPre, sweepPos]
      · rw [sweep_err1 g env V1 V2 npts comp hdiv h1]
        simp [xeOk, sweepPre]
  · by_cases h1 : senv.err1 = 0
    · by_cases h2 : senv.err2 = 0 ∨ senv.err2 = 660
      · cases hp : sampleFields senv.conv (pySplit ',' senv.read1.data)
            ⟨[], []⟩ with
        | error e =>
          rw [sample_parseErr g senv V dt npts2 comp2 form e h1 h2 hp]
          cases form <;> simp [xeOk, samplePre, sampleArm]
        | ok d =>
          rw [sample_okOut g senv V dt npts2 comp2 form d h1 h2 hp]
          cases form <;> simp [xeOk, samplePre, sampleArm]
      · rw [sample_err2 g senv V dt npts2 comp2 form h1 h2]
        cases form <;> simp [xeOk, samplePre, sampleArm]
    · rw [sample_err1 g senv V dt npts2 comp2 form h1]
      simp [xeOk, samplePre]

set_option maxRecDepth 100000 in
/-- C3 (corrected) counterexample: on the early-abort path after a nonzero
first error register, `sweep` writes the bare de-energize `DZ` but never
the channel-disabling `DZ;CL`, so "forces both channels to 0 V **and**
disables all channels on every exit path" fails on this run. -/
theorem c3_counterexample :
    (sweep defaultGlobals ⟨5, 0, 0, "", "", pyFloat, fun _ => ""⟩
        0 1 101 (1 / 1000)).result = Except.ok none ∧
    countEv (Ev.write Cmd.DZCL)
      (sweep defaultGlobals ⟨5, 0, 0, "", "", pyFloat, fun _ => ""⟩
        0 1 101 (1 / 1000)).trace = 0 ∧
    countEv (Ev.write Cmd.DZ)
      (sweep defaultGlobals ⟨5, 0, 0, "", "", pyFloat, fun _ => ""⟩
        0 1 101 (1 / 1000)).trace = 1 := by
  refine ⟨?_, ?_, ?_⟩
  · with_unfolding_all rfl
  · with_unfolding_all rfl
  · with_unfolding_all rfl

/-- C3 (corrected), amended: a data-returning run issues the combined
force-0-V-and-disable write (`DZ;CL`) exactly once and no bare `DZ`; an
early-abort (error-register) run issues the bare de-energize `DZ` exactly
once and never disables channels; a run ending in an uncaught parse
exception issues neither.  This holds for both `sweep` and `sample`. -/
theorem c3_teardown_per_path (g : Globals) (env : SweepEnv)
    (senv : SampleEnv) (V1 V2 : ℚ) (npts : ℕ) (comp : ℚ) (V dt : ℚ)
    (npts2 : ℕ) (comp2 : ℚ) (form : Bool) :
    countEv (Ev.write Cmd.DZCL) (sweep g env V1 V2 npts comp).trace =
      teardownTally (sweep g env V1 V2 npts comp).result ∧
    countEv (Ev.write Cmd.DZ) (sweep g env V1 V2 npts comp).trace =
      abortTally (sweep g env V1 V2 npts comp).result ∧
    countEv (Ev.write Cmd.DZCL) (sample g senv V dt npts2 comp2 form).trace =
      teardownTally (sample g senv V dt npts2 comp2 form).result ∧
    countEv (Ev.write Cmd.DZ) (sample g senv V dt npts2 comp2 form).trace =
      abortTally (sample g senv V dt npts2 comp2 form).result := by
  have hsw : countEv (Ev.write Cmd.DZCL) (sweep g env V1 V2 npts comp).trace =
      teardownTally (sweep g env V1 V2 npts comp).result ∧
      countEv (Ev.write Cmd.DZ) (sweep g env V1 V2 npts comp).trace =
      abortTally (sweep g env V1 V2 npts comp).result := by
    by_cases hdiv : (npts : ℚ) * g.dVdt = 0
    · rw [sweep_zeroDiv g env V1 V2 npts comp hdiv]
      exact ⟨rfl, rfl⟩
    · by_cases h1 : env.err1 = 0
      · by_cases h2 : env.err2 = 0
        · cases hp1 : sweepFields env.conv (pySplit ',' env.read1.data)
              ⟨[], [], []⟩ with
          | error e =>
            rw [sweep_parse1Err g env V1 V2 npts comp e hdiv h1 h2 hp1]
            constructor <;>
              simp [countEv, teardownTally, abortTally, sweepPre, sweepPos]
          | ok d1 =>
            by_cases h3 : env.err3 = 0
            · cases hp2 : sweepFields env.conv (pySplit ',' env.read2.data)
                  d1 with
              | error e =>
                rw [sweep_parse2Err g env V1 V2 npts comp d1 e hdiv h1 h2 h3
                  hp1 hp2]
                constructor <;> simp [countEv, teardownTally, abortTally,
                  sweepPre, sweepPos, sweepNeg]
              | ok d2 =>
                rw [sweep_okOut g env V1 V2 npts comp d1 d2 hdiv h1 h2 h3
                  hp1 hp2]
                constructor <;> simp [countEv, teardownTally, abortTally,
                  sweepPre, sweepPos, sweepNeg]
            · rw [sweep_err3 g env V1 V2 npts comp d1 hdiv h1 h2 h3 hp1]
              constructor <;> simp [countEv, teardownTally, abortTally,
                sweepPre, sweepPos, sweepNeg]
        · rw [sweep_err2 g env V1 V2 npts comp hdiv h1 h2]
          constructor <;>
            simp [countEv, teardownTally, abortTally, sweepPre, sweepPos]
      · rw [sweep_err1 g env V1 V2 npts comp hdiv h1]
        constructor <;> simp [countEv, teardownTally, abortTally, sweepPre]
  have hsa : countEv (Ev.write Cmd.DZCL)
      (sample g senv V dt npts2 comp2 form).trace =
      teardownTally (sample g senv V dt npts2 comp2 form).result ∧
      countEv (Ev.write Cmd.DZ)
      (sample g senv V dt npts2 comp2 form).trace =
      abortTally (sample g senv V dt npts2 comp2 form).result := by
    by_cases h1 : senv.err1 = 0
    · by_cases h2 : senv.err2 = 0 ∨ senv.err2 = 660
      · cases hp : sampleFields senv.conv (pySplit ',' senv.read1.data)
            ⟨[], []⟩ with
        | error e =>
          rw [sample_parseErr g senv V dt npts2 comp2 form e h1 h2 hp]
          constructor <;> (cases form <;>
            simp [countEv, teardownTally, abortTally, samplePre, sampleArm])
        | ok d =>
          rw [sample_okOut g senv V dt npts2 comp2 form d h1 h2 hp]
          constructor <;> (cases form <;>
            simp [countEv, teardownTally, abortTally, samplePre, sampleArm])
      · rw [sample_err2 g senv V dt npts2 comp2 form h1 h2]
        constructor <;> (cases form <;>
          simp [countEv, teardownTally, abortTally, samplePre, sampleArm])
    · rw [sample_err1 g senv V dt npts2 comp2 form h1]
      constructor <;>
        simp [countEv, teardownTally, abortTally, samplePre]
  exact ⟨hsw.1, hsw.2, hsa.1, hsa.2⟩

/-- C4 (confirmed): at every check point of `sweep` and `sample`, a
nonzero error register outside the accepted set makes the run return no
data (`.ok none` — no partial result), issue the `EMG?` message query for
that code, print the report carrying both the numeric code and the
instrument message, and de-energize (`DZ`) before returning. -/
theorem c4_nonzero_error_aborts (g : Globals) (env : SweepEnv)
    (senv : SampleEnv) (V1 V2 : ℚ) (npts : ℕ) (comp : ℚ) (V dt : ℚ)
    (npts2 : ℕ) (comp2 : ℚ) (form : Bool) :
    ((npts : ℚ) * g.dVdt ≠ 0 → env.err1 ≠ 0 →
      (sweep g env V1 V2 npts comp).result = Except.ok none ∧
      instrumentFailure env.emg env.err1 (sweep g env V1 V2 npts comp).trace
        (sweep g env V1 V2 npts comp).printed) ∧
    ((npts : ℚ) * g.dVdt ≠ 0 → env.err1 = 0 → env.err2 ≠ 0 →
      (sweep g env V1 V2 npts comp).result = Except.ok none ∧
      instrumentFailure env.emg env.err2 (sweep g env V1 V2 npts comp).trace
        (sweep g env V1 V2 npts comp).printed) ∧
    ((npts : ℚ) * g.dVdt ≠ 0 → env.err1 = 0 → env.err2 = 0 →
      (∃ d, sweepFields env.conv (pySplit ',' env.read1.data) ⟨[], [], []⟩ =
        Except.ok d) →
      env.err3 ≠ 0 →
      (sweep g env V1 V2 npts comp).result = Except.ok none ∧
      instrumentFailure env.emg env.err3 (sweep g env V1 V2 npts comp).trace
        (sweep g env V1 V2 npts comp).printed) ∧
    (senv.err1 ≠ 0 →
      (sample g senv V dt npts2 comp2 form).result = Except.ok none ∧
      instrumentFailure senv.emg senv.err1
        (sample g senv V dt npts2 comp2 form).trace
        (sample g senv V dt npts2 comp2 form).printed) ∧
    (senv.err1 = 0 → ¬(senv.err2 = 0 ∨ senv.err2 = 660) →
      (sample g senv V dt npts2 comp2 form).result = Except.ok none ∧
      instrumentFailure senv.emg senv.err2
        (sample g senv V dt npts2 comp2 form).trace
        (sample g senv V dt npts2 comp2 form).printed) := by
  refine ⟨?_, ?_, ?_, ?_, ?_⟩
  · intro hdiv h1
    rw [sweep_err1 g env V1 V2 npts comp hdiv h1]
    exact ⟨rfl, by simp [instrumentFailure, errorchk, sweepPre]⟩
  · intro hdiv h1 h2
    rw [sweep_err2 g env V1 V2 npts comp hdiv h1 h2]
    exact ⟨rfl, by simp [instrumentFailure, errorchk, sweepPre, sweepPos]⟩
  · intro hdiv h1 h2 hex h3
    obtain ⟨d1, hp1⟩ := hex
    rw [sweep_err3 g env V1 V2 npts comp d1 hdiv h1 h2 h3 hp1]
    exact ⟨rfl, by
      simp [instrumentFailure, errorchk, sweepPre, sweepPos, sweepNeg]⟩
  · intro h1
    rw [sample_err1 g senv V dt npts2 comp2 form h1]
    exact ⟨rfl, by simp [instrumentFailure, errorchk, samplePre]⟩
  · intro h1 h2
    rw [sample_err2 g senv V dt npts2 comp2 form h1 h2]
    exact ⟨rfl, by
      cases form <;>
        simp [instrumentFailure, errorchk, samplePre, sampleArm]⟩

/-- Witness for C4: concrete aborting runs through each of the five check
points (first/second/third sweep check, first/second sample check). -/
theorem c4_nonzero_error_aborts_witness :
    ((sweep defaultGlobals ⟨7, 0, 0, "", "", pyFloat, fun _ => "msg"⟩
        0 1 101 (1 / 1000)).result = Except.ok none ∧
      instrumentFailure (fun _ => "msg") 7
        (sweep defaultGlobals ⟨7, 0, 0, "", "", pyFloat, fun _ => "msg"⟩
          0 1 101 (1 / 1000)).trace
        (sweep defaultGlobals ⟨7, 0, 0, "", "", pyFloat, fun _ => "msg"⟩
          0 1 101 (1 / 1000)).printed) ∧
    ((sweep defaultGlobals ⟨0, 8, 0, "", "", pyFloat, fun _ => "msg"⟩
        0 1 101 (1 / 1000)).result = Except.ok none ∧
      instrumentFailure (fun _ => "msg") 8
        (sweep defaultGlobals ⟨0, 8, 0, "", "", pyFloat, fun _ => "msg"⟩
          0 1 101 (1 / 1000)).trace
        (sweep defaultGlobals ⟨0, 8, 0, "", "", pyFloat, fun _ => "msg"⟩
          0 1 101 (1 / 1000)).printed) ∧
    ((sweep defaultGlobals ⟨0, 0, 9, "NAT0", "", pyFloat, fun _ => "msg"⟩
        0 1 101 (1 / 1000)).result = Except.ok none ∧
      instrumentFailure (fun _ => "msg") 9
        (sweep defaultGlobals ⟨0, 0, 9, "NAT0", "", pyFloat, fun _ => "msg"⟩
          0 1 101 (1 / 1000)).trace
        (sweep defaultGlobals ⟨0, 0, 9, "NAT0", "", pyFloat, fun _ => "msg"⟩
          0 1 101 (1 / 1000)).printed) ∧
    ((sample defaultGlobals ⟨7, 0, "", pyFloat, fun _ => "msg"⟩
        (1 / 10) (1 / 20) 200 (1 / 1000) false).result = Except.ok none ∧
      instrumentFailure (fun _ => "msg") 7
        (sample defaultGlobals ⟨7, 0, "", pyFloat, fun _ => "msg"⟩
          (1 / 10) (1 / 20) 200 (1 / 1000) false).trace
        (sample defaultGlobals ⟨7, 0, "", pyFloat, fun _ => "msg"⟩
          (1 / 10) (1 / 20) 200 (1 / 1000) false).printed) ∧
    ((sample defaultGlobals ⟨0, 42, "", pyFloat, fun _ => "msg"⟩
        (1 / 10) (1 / 20) 200 (1 / 1000) false).result = Except.ok none ∧
      instrumentFailure (fun _ => "msg") 42
        (sample defaultGlobals ⟨0, 42, "", pyFloat, fun _ => "msg"⟩
          (1 / 10) (1 / 20) 200 (1 / 1000) false).trace
        (sample defaultGlobals ⟨0, 42, "", pyFloat, fun _ => "msg"⟩
          (1 / 10) (1 / 20) 200 (1 / 1000) false).printed) :=
  ⟨(c4_nonzero_error_aborts defaultGlobals
      ⟨7, 0, 0, "", "", pyFloat, fun _ => "msg"⟩
      ⟨7, 0, "", pyFloat, fun _ => "msg"⟩ 0 1 101 (1 / 1000)
      (1 / 10) (1 / 20) 200 (1 / 1000) false).1
    (by norm_num [defaultGlobals]) (by decide),
   (c4_nonzero_error_aborts defaultGlobals
      ⟨0, 8, 0, "", "", pyFloat, fun _ => "msg"⟩
      ⟨7, 0, "", pyFloat, fun _ => "msg"⟩ 0 1 101 (1 / 1000)
      (1 / 10) (1 / 20) 200 (1 / 1000) false).2.1
    (by norm_num [defaultGlobals]) rfl (by decide),
   (c4_nonzero_error_aborts defaultGlobals
      ⟨0, 0, 9, "NAT0", "", pyFloat, fun _ => "msg"⟩
      ⟨7, 0, "", pyFloat, fun _ => "msg"⟩ 0 1 101 (1 / 1000)
      (1 / 10) (1 / 20) 200 (1 / 1000) false).2.2.1
    (by norm_num [defaultGlobals]) rfl rfl
    ⟨⟨[0], [], []⟩, by with_unfolding_all rfl⟩ (by decide),
   (c4_nonzero_error_aborts defaultGlobals
      ⟨0, 8, 0, "", "", pyFloat, fun _ => "msg"⟩
      ⟨7, 0, "", pyFloat, fun _ => "msg"⟩ 0 1 101 (1 / 1000)
      (1 / 10) (1 / 20) 200 (1 / 1000) false).2.2.2.1 (by decide),
   (c4_nonzero_error_aborts defaultGlobals
      ⟨0, 8, 0, "", "", pyFloat, fun _ => "msg"⟩
      ⟨0, 42, "", pyFloat, fun _ => "msg"⟩ 0 1 101 (1 / 1000)
      (1 / 10) (1 / 20) 200 (1 / 1000) false).2.2.2.2 rfl (by decide)⟩

/-- C5 (confirmed): for a valid sweep (`points ≥ 2`) that completes
without error — both error checks clean and each pass's response decoding
to `npts` values per kind — `sweep` returns the three series Time,
Voltage, Current, each of length `2*npts`, positive pass first, negative
pass appended second. -/
theorem c5_sweep_lengths (g : Globals) (env : SweepEnv) (V1 V2 : ℚ)
    (npts : ℕ) (comp : ℚ) (d1 d2 : TVI)
    (hnp : 2 ≤ npts) (hdiv : (npts : ℚ) * g.dVdt ≠ 0)
    (h1 : env.err1 = 0) (h2 : env.err2 = 0) (h3 : env.err3 = 0)
    (hp1 : sweepFields env.conv (pySplit ',' env.read1.data) ⟨[], [], []⟩ =
      Except.ok d1)
    (hp2 : sweepFields env.conv (pySplit ',' env.read2.data) ⟨[], [], []⟩ =
      Except.ok d2)
    (hT1 : d1.Tdat.length = npts) (hV1 : d1.Vdat.length = npts)
    (hI1 : d1.Idat.length = npts) (hT2 : d2.Tdat.length = npts)
    (hV2 : d2.Vdat.length = npts) (hI2 : d2.Idat.length = npts) :
    (sweep g env V1 V2 npts comp).result =
      Except.ok (some ⟨d1.Tdat ++ d2.Tdat, d1.Vdat ++ d2.Vdat,
                       d1.Idat ++ d2.Idat⟩) ∧
    (d1.Tdat ++ d2.Tdat).length = 2 * npts ∧
    (d1.Vdat ++ d2.Vdat).length = 2 * npts ∧
    (d1.Idat ++ d2.Idat).length = 2 * npts := by
  have hp2b : sweepFields env.conv (pySplit ',' env.read2.data) d1 =
      Except.ok ⟨d1.Tdat ++ d2.Tdat, d1.Vdat ++ d2.Vdat,
                 d1.Idat ++ d2.Idat⟩ := by
    rw [sweepFields_shift, hp2]; rfl
  rw [sweep_okOut g env V1 V2 npts comp d1 _ hdiv h1 h2 h3 hp1 hp2b]
  refine ⟨rfl, ?_, ?_, ?_⟩ <;>
    simp [List.length_append, hT1, hV1, hI1, hT2, hV2, hI2] <;> omega

set_option maxRecDepth 100000 in
/-- Witness for C5 with `npts = 2` and two well-formed two-point pass
responses. -/
theorem c5_sweep_lengths_witness :
    (sweep defaultGlobals
        ⟨0, 0, 0, "AAT1,AAV1,AAI1,AAT2,AAV2,AAI2",
         "AAT1,AAV1,AAI1,AAT2,AAV2,AAI2", pyFloat, fun _ => ""⟩
        0 1 2 (1 / 1000)).result =
      Except.ok (some ⟨[1, 2] ++ [1, 2], [1, 2] ++ [1, 2],
                       [1, 2] ++ [1, 2]⟩) ∧
    (([1, 2] ++ [1, 2] : Series)).length = 2 * 2 ∧
    (([1, 2] ++ [1, 2] : Series)).length = 2 * 2 ∧
    (([1, 2] ++ [1, 2] : Series)).length = 2 * 2 :=
  c5_sweep_lengths defaultGlobals
    ⟨0, 0, 0, "AAT1,AAV1,AAI1,AAT2,AAV2,AAI2",
     "AAT1,AAV1,AAI1,AAT2,AAV2,AAI2", pyFloat, fun _ => ""⟩
    0 1 2 (1 / 1000) ⟨[1, 2], [1, 2], [1, 2]⟩ ⟨[1, 2], [1, 2], [1, 2]⟩
    (by norm_num) (by norm_num [defaultGlobals]) rfl rfl rfl
    (by with_unfolding_all rfl) (by with_unfolding_all rfl)
    rfl rfl rfl rfl rfl rfl

set_option maxRecDepth 400000 in
/-- C7 (corrected) counterexample: with `startV = 1`, the negative-pass
voltage program written after the positive pass is
`WV top,3,0,1,-2,npts,comp` — its sweep start is `startV = 1`, not the
`0` the claim states; no `WV` with start `0` and stop `-endV` appears in
the trace. -/
theorem c7_counterexample :
    Ev.write (Cmd.WV 3 3 0 1 (-2) 3 (1 / 1000)) ∈
      (sweep defaultGlobals
        ⟨0, 0, 0, "NAT0,NAV1,NAI0", "NAT0,NAV1,NAI0", pyFloat, fun _ => ""⟩
        1 2 3 (1 / 1000)).trace ∧
    Ev.write (Cmd.WV 3 3 0 0 (-2) 3 (1 / 1000)) ∉
      (sweep defaultGlobals
        ⟨0, 0, 0, "NAT0,NAV1,NAI0", "NAT0,NAV1,NAI0", pyFloat, fun _ => ""⟩
        1 2 3 (1 / 1000)).trace := by
  constructor
  · with_unfolding_all decide
  · with_unfolding_all decide

/-- C7 (corrected), amended: after the positive pass, `sweep` reprograms
the voltage program for the negative direction as
`(startV → -endV, points, compliance)` — start `startV` (which is `0` at
every call site of the script), not a hard-coded `0` — re-issues none of
the reset/configuration commands of steps 1-4, and appends the
negative-pass data after the positive-pass data. -/
theorem c7_neg_reprogram (g : Globals) (env : SweepEnv) (V1 V2 : ℚ)
    (npts : ℕ) (comp : ℚ) (d1 d2 : TVI)
    (hdiv : (npts : ℚ) * g.dVdt ≠ 0)
    (h1 : env.err1 = 0) (h2 : env.err2 = 0) (h3 : env.err3 = 0)
    (hp1 : sweepFields env.conv (pySplit ',' env.read1.data) ⟨[], [], []⟩ =
      Except.ok d1)
    (hp2 : sweepFields env.conv (pySplit ',' env.read2.data) ⟨[], [], []⟩ =
      Except.ok d2) :
    (sweep g env V1 V2 npts comp).trace =
      sweepPre g comp (sweepDelay g V1 V2 npts) ++
        sweepPos g V1 V2 npts comp ++ [Ev.readData] ++
        sweepNeg g V1 V2 npts comp ++ [Ev.readData, Ev.write Cmd.DZCL] ∧
    sweepNeg g V1 V2 npts comp =
      [Ev.write (Cmd.WV g.top 3 0 V1 (-V2) npts comp), Ev.write Cmd.XE,
       Ev.queryOPC, Ev.queryERR] ∧
    (∀ c : Cmd, Ev.write c ∈ sweepNeg g V1 V2 npts comp →
      isConfigCmd c = false) ∧
    (sweep g env V1 V2 npts comp).result =
      Except.ok (some ⟨d1.Tdat ++ d2.Tdat, d1.Vdat ++ d2.Vdat,
                       d1.Idat ++ d2.Idat⟩) := by
  have hp2b : sweepFields env.conv (pySplit ',' env.read2.data) d1 =
      Except.ok ⟨d1.Tdat ++ d2.Tdat, d1.Vdat ++ d2.Vdat,
                 d1.Idat ++ d2.Idat⟩ := by
    rw [sweepFields_shift, hp2]; rfl
  rw [sweep_okOut g env V1 V2 npts comp d1 _ hdiv h1 h2 h3 hp1 hp2b]
  refine ⟨rfl, rfl, ?_, rfl⟩
  intro c hcmem
  simp [sweepNeg] at hcmem
  rcases hcmem with h | h <;> subst h <;> rfl

set_option maxRecDepth 100000 in
/-- Witness for C7's amended statement on a concrete clean run. -/
theorem c7_neg_reprogram_witness :
    (sweep defaultGlobals
        ⟨0, 0, 0, "NAT1,NAV1,NAI1", "NAT1,NAV1,NAI1", pyFloat, fun _ => ""⟩
        0 1 3 (1 / 1000)).trace =
      sweepPre defaultGlobals (1 / 1000) (sweepDelay defaultGlobals 0 1 3) ++
        sweepPos defaultGlobals 0 1 3 (1 / 1000) ++ [Ev.readData] ++
        sweepNeg defaultGlobals 0 1 3 (1 / 1000) ++
        [Ev.readData, Ev.write Cmd.DZCL] ∧
    sweepNeg defaultGlobals 0 1 3 (1 / 1000) =
      [Ev.write (Cmd.WV 3 3 0 0 (-1) 3 (1 / 1000)), Ev.write Cmd.XE,
       Ev.queryOPC, Ev.queryERR] ∧
    (∀ c : Cmd, Ev.write c ∈ sweepNeg defaultGlobals 0 1 3 (1 / 1000) →
      isConfigCmd c = false) ∧
    (sweep defaultGlobals
        ⟨0, 0, 0, "NAT1,NAV1,NAI1", "NAT1,NAV1,NAI1", pyFloat, fun _ => ""⟩
        0 1 3 (1 / 1000)).result =
      Except.ok (some ⟨[1] ++ [1], [1] ++ [1], [1] ++ [1]⟩) :=
  c7_neg_reprogram defaultGlobals
    ⟨0, 0, 0, "NAT1,NAV1,NAI1", "NAT1,NAV1,NAI1", pyFloat, fun _ => ""⟩
    0 1 3 (1 / 1000) ⟨[1], [1], [1]⟩ ⟨[1], [1], [1]⟩
    (by norm_num [defaultGlobals]) rfl rfl rfl
    (by with_unfolding_all rfl) (by with_unfolding_all rfl)

/-- C8 (confirmed): on responses whose comma-split fields all have at
least three characters and whose recognized-tag payloads convert, both
parse loops inspect the character at offset 2 as the kind tag, convert
the substring from offset 3 as a float, and collect each value into the
series of its kind in transmission order (`seriesFor`), ignoring fields
with unrecognized tags. -/
theorem c8_parser_dispatch (conv : String → Option ℚ) (raw : String)
    (hlen : ∀ f ∈ pySplit ',' raw.data, 2 < f.length)
    (hconv : ∀ f ∈ pySplit ',' raw.data,
      (f[2]? = some 'I' ∨ f[2]? = some 'V' ∨ f[2]? = some 'T') →
      (conv (String.mk (f.drop 3))).isSome) :
    sweepFields conv (pySplit ',' raw.data) ⟨[], [], []⟩ =
      Except.ok ⟨seriesFor conv 'T' (pySplit ',' raw.data),
                 seriesFor conv 'V' (pySplit ',' raw.data),
                 seriesFor conv 'I' (pySplit ',' raw.data)⟩ ∧
    sampleFields conv (pySplit ',' raw.data) ⟨[], []⟩ =
      Except.ok ⟨seriesFor conv 'T' (pySplit ',' raw.data),
                 seriesFor conv 'I' (pySplit ',' raw.data)⟩ := by
  constructor
  · simpa using sweepFields_toSeries conv (pySplit ',' raw.data) hlen hconv
      ⟨[], [], []⟩
  · simpa using sampleFields_toSeries conv (pySplit ',' raw.data) hlen
      (fun f hf h => hconv f hf (by tauto)) ⟨[], []⟩

set_option maxRecDepth 100000 in
/-- Witness for C8 on a response mixing all three kinds and an
unrecognized tag (`Q`). -/
theorem c8_parser_dispatch_witness :
    sweepFields pyFloat (pySplit ',' ("NAT+0.5,NAV1.5,NAI-2E-6,NAQ77").data)
        ⟨[], [], []⟩ =
      Except.ok
        ⟨seriesFor pyFloat 'T' (pySplit ',' ("NAT+0.5,NAV1.5,NAI-2E-6,NAQ77").data),
         seriesFor pyFloat 'V' (pySplit ',' ("NAT+0.5,NAV1.5,NAI-2E-6,NAQ77").data),
         seriesFor pyFloat 'I' (pySplit ',' ("NAT+0.5,NAV1.5,NAI-2E-6,NAQ77").data)⟩ ∧
    sampleFields pyFloat (pySplit ',' ("NAT+0.5,NAV1.5,NAI-2E-6,NAQ77").data)
        ⟨[], []⟩ =
      Except.ok
        ⟨seriesFor pyFloat 'T' (pySplit ',' ("NAT+0.5,NAV1.5,NAI-2E-6,NAQ77").data),
         seriesFor pyFloat 'I' (pySplit ',' ("NAT+0.5,NAV1.5,NAI-2E-6,NAQ77").data)⟩ :=
  c8_parser_dispatch pyFloat "NAT+0.5,NAV1.5,NAI-2E-6,NAQ77"
    (by with_unfolding_all decide) (by with_unfolding_all decide)

set_option maxRecDepth 100000 in
/-- C1 (corrected) counterexample: a forming sample whose response carries
the decoded value `1e101` — at the overflow threshold — returns that raw
value in the Current series: the driver's decode loops apply no overflow
normalization before returning. -/
theorem c1_counterexample :
    (sample defaultGlobals ⟨0, 0, "ABT0,ABI1E+101", pyFloat, fun _ => ""⟩
        (7 / 2) (1 / 5) 2400 (1 / 200000) true).result =
      Except.ok (some ⟨[0], [10 ^ 101]⟩) ∧
    overflowThreshold ≤ (10 : ℚ) ^ 101 := by
  constructor
  · with_unfolding_all rfl
  · norm_num [overflowThreshold]

/-- C1 (corrected), amended: neither decode loop normalizes overflow
values — a converted value at or above the threshold is appended to the
returned series unchanged; the replacement of values `≥ 1e101` by the
placeholder `0` is performed only by the caller (`main`, source line 263),
and only on the forming sample's data, via `overflowNormalize`. -/
theorem c1_no_normalization_in_driver (conv : String → Option ℚ)
    (f : List Char) (v : ℚ) (acc : TI) (acc2 : TVI)
    (hc : f[2]? = some 'I') (hv : conv (String.mk (f.drop 3)) = some v)
    (hov : overflowThreshold ≤ v) :
    sampleFields conv [f] acc = Except.ok ⟨acc.Tdat, acc.Idat ++ [v]⟩ ∧
    sweepFields conv [f] acc2 =
      Except.ok ⟨acc2.Tdat, acc2.Vdat, acc2.Idat ++ [v]⟩ ∧
    overflowNormalize (acc.Idat ++ [v]) =
      overflowNormalize acc.Idat ++ [0] := by
  refine ⟨?_, ?_, ?_⟩
  · simp [sampleFields, sampleField, appendIf, hc, hv, ok_bind]
  · simp [sweepFields, sweepField, appendIf, hc, hv, ok_bind]
  · simp [overflowNormalize, hov]

set_option maxRecDepth 100000 in
/-- Witness for C1's amended statement at the decoded value `1e101`. -/
theorem c1_no_normalization_in_driver_witness :
    sampleFields pyFloat ["ABI1E+101".data] ⟨[], []⟩ =
      Except.ok ⟨[], [] ++ [10 ^ 101]⟩ ∧
    sweepFields pyFloat ["ABI1E+101".data] ⟨[], [], []⟩ =
      Except.ok ⟨[], [], [] ++ [10 ^ 101]⟩ ∧
    overflowNormalize ([] ++ [10 ^ 101]) = overflowNormalize [] ++ [0] :=
  c1_no_normalization_in_driver pyFloat "ABI1E+101".data (10 ^ 101)
    ⟨[], []⟩ ⟨[], [], []⟩ (by decide) (by with_unfolding_all rfl)
    (by norm_num [overflowThreshold])

set_option maxRecDepth 100000 in
/-- C2 (corrected) counterexample: a **non-forming** sample
(`form = false`) whose post-execution error register reads the benign
auto-abort code `660` does not abort: it prints nothing and returns its
decoded data normally, where the claim says it raises `InstrumentError`. -/
theorem c2_counterexample :
    (sample defaultGlobals ⟨0, 660, "ABT0,ABI0", pyFloat, fun _ => ""⟩
        (1 / 10) (1 / 20) 200 (1 / 1000) false).result =
      Except.ok (some ⟨[0], [0]⟩) ∧
    (sample defaultGlobals ⟨0, 660, "ABT0,ABI0", pyFloat, fun _ => ""⟩
        (1 / 10) (1 / 20) 200 (1 / 1000) false).printed = [] := by
  constructor
  · with_unfolding_all rfl
  · with_unfolding_all rfl

/-- C2 (corrected), amended: the sampling run accepts the benign
auto-abort code `660` as success **unconditionally** — whatever the
`form` flag — returning the decoded data with nothing printed; any error
code outside `{0, 660}` at that check aborts with no data returned. -/
theorem c2_benign_code_unconditional (g : Globals) (env : SampleEnv)
    (V dt : ℚ) (npts : ℕ) (comp : ℚ) (form : Bool) :
    (env.err1 = 0 → (env.err2 = 0 ∨ env.err2 = 660) →
      ∀ d : TI,
        sampleFields env.conv (pySplit ',' env.read1.data) ⟨[], []⟩ =
          Except.ok d →
        (sample g env V dt npts comp form).result = Except.ok (some d) ∧
        (sample g env V dt npts comp form).printed = []) ∧
    (env.err1 = 0 → ¬(env.err2 = 0 ∨ env.err2 = 660) →
      (sample g env V dt npts comp form).result = Except.ok none) := by
  constructor
  · intro h1 h2 d hp
    rw [sample_okOut g env V dt npts comp form d h1 h2 hp]
    exact ⟨rfl, rfl⟩
  · intro h1 h2
    rw [sample_err2 g env V dt npts comp form h1 h2]

set_option maxRecDepth 100000 in
/-- Witness for C2's amended statement: code `660` accepted with
`form = false`, and code `42` aborting. -/
theorem c2_benign_code_unconditional_witness :
    ((sample defaultGlobals ⟨0, 660, "ABT0,ABI0", pyFloat, fun _ => ""⟩
        (1 / 10) (1 / 20) 200 (1 / 1000) false).result =
      Except.ok (some ⟨[0], [0]⟩) ∧
     (sample defaultGlobals ⟨0, 660, "ABT0,ABI0", pyFloat, fun _ => ""⟩
        (1 / 10) (1 / 20) 200 (1 / 1000) false).printed = []) ∧
    (sample defaultGlobals ⟨0, 42, "ABT0,ABI0", pyFloat, fun _ => ""⟩
        (1 / 10) (1 / 20) 200 (1 / 1000) false).result = Except.ok none :=
  ⟨(c2_benign_code_unconditional defaultGlobals
      ⟨0, 660, "ABT0,ABI0", pyFloat, fun _ => ""⟩
      (1 / 10) (1 / 20) 200 (1 / 1000) false).1 rfl (by decide)
      ⟨[0], [0]⟩ (by with_unfolding_all rfl),
   (c2_benign_code_unconditional defaultGlobals
      ⟨0, 42, "ABT0,ABI0", pyFloat, fun _ => ""⟩
      (1 / 10) (1 / 20) 200 (1 / 1000) false).2 rfl (by decide)⟩

end B1500A
